import Mathlib

/-!
Verification of the delayprobe IPFIX probe plugin
(src/src/plugins/delayprobe/delayprobe.c) against its design
specification.  The control-plane state machine, the template
encoder and the scheduler pacing logic are embedded shallowly:
C `u8`/`u16`/`u32` values become `Nat` with the relevant sentinels
(`255` for `(u8) ~0`, `2 ^ 32 - 1` for `(u32) ~0`) and explicit
`% 2 ^ 32` where u32 overflow matters; fallible handlers return the
mutated state paired with the C return value as an `Int`.
-/

/- ### Constants

Numeric constants that live in headers not shipped under src/
(delayprobe.h, the generated API enums, vnet api_errno.h) are modelled
below; each such definition carries a doc comment saying so.  The
claims never depend on the particular numbers, only on the sentinels
and on the codes being distinct and nonzero. -/

/-- Modulus of C u32 arithmetic. -/
def U32_MOD : Nat := 2 ^ 32

/-- The C `(u32) ~0` sentinel / maximal u32. -/
def U32_MAX : Nat := 2 ^ 32 - 1

/-- The C `(u8) ~0` sentinel used for "no variant / no direction". -/
def U8_SENTINEL : Nat := 255

/-- Modelled from the spec: the only flow variant of the plugin
(delayprobe.h is not under src/).  The single SRH-IPv6 variant gets
index 0 of the per-variant arrays. -/
def FLOW_VARIANT_SRH_IP6 : Nat := 0

/-- Modelled from the spec: number of flow variants (delayprobe.h is
not under src/); the plugin has exactly one. -/
def FLOW_N_VARIANTS : Nat := 1

/-- Modelled from the spec: direction tag for RX (delayprobe.h is not
under src/). -/
def FLOW_DIRECTION_RX : Nat := 0

/-- Modelled from the spec: direction tag for TX (delayprobe.h is not
under src/). -/
def FLOW_DIRECTION_TX : Nat := 1

/-- Modelled from the spec: direction tag for both directions
(delayprobe.h is not under src/). -/
def FLOW_DIRECTION_BOTH : Nat := 2

/-- Modelled from the spec: the L3 record-flag bit (delayprobe.h is
not under src/).  Only its being nonzero and below `FLOW_N_RECORDS`
matters to the claims. -/
def FLOW_RECORD_L3 : Nat := 2

/-- Modelled from the spec: size of the per-record-flag arrays
`template_reports` / `template_size` (delayprobe.h is not under
src/). -/
def FLOW_N_RECORDS : Nat := 8

/-- Modelled from the spec: the L3 bit of the API reply record flags
(generated API types are not under src/). -/
def DELAYPROBE_RECORD_FLAG_L3 : Nat := 2

/-- Modelled from the spec: default active timer used when the caller
passes `(u32) ~0` (delayprobe.h is not under src/); the exact default
is immaterial to the claims. -/
def delayprobe_TIMER_ACTIVE : Nat := 15

/-- Modelled from the spec: default passive timer used when the caller
passes `(u32) ~0` (delayprobe.h is not under src/); the exact default
is immaterial to the claims. -/
def delayprobe_TIMER_PASSIVE : Nat := 120

/-- Modelled from the spec: log2 of the per-worker hash/pool size, the
spec has "hash of 2^L buckets over pool indices, backed by a slab pool
sized 2^L" (delayprobe.h is not under src/). -/
def delayprobe_LOG2_HASHSIZE : Nat := 10

/-- Modelled from the spec: maximal number of SRH segment-list entries,
"limit 16 IPv6" in the source comment (delayprobe.h is not under
src/). -/
def FLOW_SRH_MAX_SID_LIST : Nat := 16

/-- Modelled from the spec: vnet error code for UNSUPPORTED
(api_errno.h is not under src/); distinct nonzero value. -/
def VNET_API_ERROR_UNSUPPORTED : Int := -2

/-- Modelled from the spec: vnet error code for INVALID_VALUE
(api_errno.h is not under src/); distinct nonzero value. -/
def VNET_API_ERROR_INVALID_VALUE : Int := -3

/-- Modelled from the spec: vnet error code for
CANNOT_ENABLE_DISABLE_FEATURE (api_errno.h is not under src/);
distinct nonzero value. -/
def VNET_API_ERROR_CANNOT_ENABLE_DISABLE_FEATURE : Int := -4

/-- Modelled from the spec: vnet error code for INVALID_SW_IF_INDEX
(api_errno.h is not under src/); distinct nonzero value. -/
def VNET_API_ERROR_INVALID_SW_IF_INDEX : Int := -5

/-- Modelled from the spec: vnet error code for VALUE_EXIST
(api_errno.h is not under src/); distinct nonzero value. -/
def VNET_API_ERROR_VALUE_EXIST : Int := -6

/-- Modelled from the spec: a CLI command returning a non-null
clib_error_t is a failure; represented by a distinct nonzero code. -/
def CLI_FAILURE : Int := -1

/-- The IP protocol number of UDP, assigned by
`ip->protocol = IP_PROTOCOL_UDP`. -/
def IP_PROTOCOL_UDP : Nat := 17

/-- Modelled from the spec: the IPFIX message version carried by
`version_length` (the ipfix packet header, vnet, is not under
src/). -/
def IPFIX_VERSION : Nat := 10

/- ### The template field-specifier list (C1) -/

/-- The IPFIX information-element names used by the encoder.  The
numeric TLV ids live in a header not under src/, so the elements are
kept symbolic; the claims are about order and widths only. -/
inductive IpfixElementId where
  | sourceIPv6Address
  | destinationIPv6Address
  | packetDeltaCount
  | octetDeltaCount
  | srhActiveSegmentIPv6
  | srhSegmentEndpointBehavior
  | srhSegmentIPv6sLeft
  | srhFlagsIPv6
  | srhTagIPv6
  | srhSegmentIPv6BasicList
deriving DecidableEq, Repr

/-- One IPFIX field specifier as written by
`f->e_id_length = ipfix_e_id_length (enterprise, element, length)`. -/
structure FieldSpecifier where
  enterprise : Nat
  element : IpfixElementId
  length : Nat
deriving DecidableEq, Repr

/-- Embeds `ipfix_e_id_length`: packs an enterprise scope, an element
id and a length into one specifier (the bit packing itself needs the
numeric ids of a header not under src/, so the specifier is kept
structured). -/
def ipfix_e_id_length (e : Nat) (elt : IpfixElementId) (len : Nat) :
    FieldSpecifier :=
  { enterprise := e, element := elt, length := len }

/-- Embeds `delayprobe_template_ip6_srh_field_count ()`. -/
def delayprobe_template_ip6_srh_field_count : Nat := 11

/-- Embeds `delayprobe_template_ip6_srh_fields`: the eleven sequential
`f->e_id_length = ipfix_e_id_length (0, element, length); f++;`
writes, in source order. -/
def delayprobe_template_ip6_srh_fields : List FieldSpecifier :=
  [ ipfix_e_id_length 0 .sourceIPv6Address 16,
    ipfix_e_id_length 0 .srhActiveSegmentIPv6 16,
    ipfix_e_id_length 0 .srhSegmentEndpointBehavior 2,
    ipfix_e_id_length 0 .srhSegmentIPv6sLeft 1,
    ipfix_e_id_length 0 .srhFlagsIPv6 1,
    ipfix_e_id_length 0 .srhTagIPv6 2,
    ipfix_e_id_length 0 .srhSegmentIPv6BasicList (16 * FLOW_SRH_MAX_SID_LIST),
    ipfix_e_id_length 0 .sourceIPv6Address 16,
    ipfix_e_id_length 0 .destinationIPv6Address 16,
    ipfix_e_id_length 0 .packetDeltaCount 8,
    ipfix_e_id_length 0 .octetDeltaCount 8 ]

/-- The field order and width table transcribed from the words of spec
section 4.4 (the refinement reference the encoder output is compared
against). -/
def spec_srh_ip6_field_layout : List (IpfixElementId × Nat) :=
  [ (.sourceIPv6Address, 16),
    (.srhActiveSegmentIPv6, 16),
    (.srhSegmentEndpointBehavior, 2),
    (.srhSegmentIPv6sLeft, 1),
    (.srhFlagsIPv6, 1),
    (.srhTagIPv6, 2),
    (.srhSegmentIPv6BasicList, 16 * FLOW_SRH_MAX_SID_LIST),
    (.sourceIPv6Address, 16),
    (.destinationIPv6Address, 16),
    (.packetDeltaCount, 8),
    (.octetDeltaCount, 8) ]

/- ### The template packet rewrite (C8) -/

/-- Byte size of an ip4_header_t on the wire. -/
def ip4_header_bytes : Nat := 20

/-- Byte size of a udp_header_t on the wire. -/
def udp_header_bytes : Nat := 8

/-- Byte size of an ipfix_message_header_t on the wire. -/
def ipfix_message_header_bytes : Nat := 16

/-- Byte size of an ipfix_set_header_t on the wire. -/
def ipfix_set_header_bytes : Nat := 4

/-- Byte size of an ipfix_template_header_t on the wire. -/
def ipfix_template_header_bytes : Nat := 4

/-- Byte size of an ipfix_field_specifier_t on the wire. -/
def ipfix_field_specifier_bytes : Nat := 4

/-- Byte size of ip4_ipfix_template_packet_t: the stacked outer
headers up to and including the template header. -/
def ip4_ipfix_template_packet_bytes : Nat :=
  ip4_header_bytes + udp_header_bytes + ipfix_message_header_bytes +
    ipfix_set_header_bytes + ipfix_template_header_bytes

/-- Modelled from the spec: `ip4_header_checksum` (vnet, not under
src/) — the standard IPv4 header checksum, the ones complement of the
ones-complement sum of the ten 16-bit header words with the checksum
field taken as zero.  Arguments are the header fields in wire order;
`src`/`dst` are 32-bit addresses split into two words each. -/
def ip4_header_checksum (ver_ihl tos total_len ident frag ttl protocol
    src dst : Nat) : Nat :=
  let words := [ver_ihl * 256 + tos, total_len, ident, frag,
                ttl * 256 + protocol, 0,
                src / 65536, src % 65536, dst / 65536, dst % 65536]
  let sum0 := words.foldl (· + ·) 0
  let sum1 := sum0 % 65536 + sum0 / 65536
  let sum2 := sum1 % 65536 + sum1 / 65536
  65535 - sum2

/-- The template packet built by the rewrite.  A field holding `none`
is one the encoder never wrote (the buffer starts zeroed); `some v`
records the value the encoder stored.  Offsets are bytes from the
start of the rewrite vector. -/
structure TemplatePacket where
  rewrite_len : Nat
  ip_version_and_header_length : Option Nat
  ip_ttl : Option Nat
  ip_protocol : Option Nat
  ip_src_address : Option Nat
  ip_dst_address : Option Nat
  ip_length : Option Nat
  ip_checksum : Option Nat
  udp_src_port : Option Nat
  udp_dst_port : Option Nat
  udp_length : Option Nat
  udp_checksum : Option Nat
  h_version_length : Option (Nat × Nat)
  h_export_time : Option Nat
  h_sequence_number : Option Nat
  h_domain_id : Option Nat
  s_set_id_length : Option (Nat × Nat)
  t_id_count : Option (Nat × Nat)
  fields : List FieldSpecifier
  template_size_out : Nat
deriving DecidableEq, Repr

/-- Embeds `delayprobe_template_rewrite_inline` (and its srh-ip6
wrapper): the pointer layout of `ip4_ipfix_template_packet_t` becomes
explicit byte offsets, each header-field store becomes a `some`
assignment, and `template_size_out` records the value the function
stores into `fm->template_size[flags]`, namely `(u8 *) f - (u8 *) s`.
`src`/`dst` are the exporter addresses, `stream_src_port` and
`collector_port` the UDP ports, `domain_id` the stream domain and
`template_id` the id assigned by the flow-report layer. -/
def delayprobe_template_rewrite (src dst stream_src_port collector_port
    domain_id template_id : Nat) : TemplatePacket :=
  let field_count := delayprobe_template_ip6_srh_field_count
  let rewrite_len :=
    ip4_ipfix_template_packet_bytes + field_count * ipfix_field_specifier_bytes
  let ip_off := 0
  let udp_off := ip_off + ip4_header_bytes
  let h_off := udp_off + udp_header_bytes
  let s_off := h_off + ipfix_message_header_bytes
  let t_off := s_off + ipfix_set_header_bytes
  let first_field_off := t_off + ipfix_template_header_bytes
  let fields := delayprobe_template_ip6_srh_fields
  let f_off := first_field_off + fields.length * ipfix_field_specifier_bytes
  { rewrite_len := rewrite_len,
    ip_version_and_header_length := some 0x45,
    ip_ttl := some 254,
    ip_protocol := some IP_PROTOCOL_UDP,
    ip_src_address := some src,
    ip_dst_address := some dst,
    ip_length := some (f_off - ip_off),
    ip_checksum := some (ip4_header_checksum 0x45 0 (f_off - ip_off) 0 0 254
      IP_PROTOCOL_UDP src dst),
    udp_src_port := some stream_src_port,
    udp_dst_port := some collector_port,
    udp_length := some (rewrite_len - ip4_header_bytes),
    udp_checksum := none,
    h_version_length := some (IPFIX_VERSION, f_off - h_off),
    h_export_time := none,
    h_sequence_number := none,
    h_domain_id := some domain_id,
    s_set_id_length := some (2, f_off - s_off),
    t_id_count := some (template_id, fields.length),
    fields := fields,
    template_size_out := f_off - s_off }

/-- The byte size the rewrite stores into `fm->template_size[flags]`
(independent of the exporter parameters). -/
def delayprobe_template_size_value : Nat :=
  (delayprobe_template_rewrite 0 0 0 0 0 0).template_size_out

/- ### Control-plane module state -/

/-- Descriptor of one per-worker slab pool as allocated by
`pool_alloc (fm->pool_per_worker[i], 1 << fm->ht_log2len)`: an empty
pool of the given fixed capacity. -/
structure FlowPool where
  capacity : Nat
deriving DecidableEq, Repr

/-- Modelled from the spec: the per-worker timer wheel built by
`tw_timer_wheel_init_2t_1w_2048sl` (the tw_timer template of vppinfra
is not under src/).  The spec describes a two-tier fixed-slot wheel of
2048 slots; the code passes tick interval 1.0 and a 1024 expiration
batch limit, recorded here verbatim. -/
structure TimerWheel where
  tiers : Nat
  slots : Nat
  timer_interval : Rat
  max_expirations : Nat
deriving DecidableEq, Repr

/-- The wheel descriptor every worker receives. -/
def delayprobe_timer_wheel : TimerWheel :=
  { tiers := 2, slots := 2048, timer_interval := 1, max_expirations := 1024 }

/-- The mutable module state `delayprobe_main_t` as far as the control
path touches it.  Growable vectors are lists; the fixed per-variant /
per-record arrays are lists of fixed length; timestamps are exact
rationals. -/
structure DelayprobeMain where
  record : Nat
  active_timer : Nat
  passive_timer : Nat
  flow_per_interface : List Nat
  direction_per_interface : List Nat
  template_per_flow : List Nat
  template_reports : List Nat
  template_size : List Nat
  context_flags : List Nat
  initialized : Bool
  disabled : Bool
  ht_log2len : Nat
  pool_per_worker : List FlowPool
  hash_per_worker : List (List Nat)
  timers_per_worker : List TimerWheel
  expired_passive_per_worker : List (List Nat)
  stateless_entry : List Rat
deriving DecidableEq, Repr

/-- The state after `delayprobe_init`: record flags unset, timers at
their defaults, per-record template arrays zeroed
(`clib_memset (fm->template_reports, 0, ...)` and friends), nothing
allocated. -/
def delayprobe_init_state : DelayprobeMain :=
  { record := 0,
    active_timer := delayprobe_TIMER_ACTIVE,
    passive_timer := delayprobe_TIMER_PASSIVE,
    flow_per_interface := [],
    direction_per_interface := [],
    template_per_flow := List.replicate FLOW_N_VARIANTS 0,
    template_reports := List.replicate FLOW_N_RECORDS 0,
    template_size := List.replicate FLOW_N_RECORDS 0,
    context_flags := List.replicate FLOW_N_VARIANTS 0,
    initialized := false,
    disabled := false,
    ht_log2len := 0,
    pool_per_worker := [],
    hash_per_worker := [],
    timers_per_worker := [],
    expired_passive_per_worker := [],
    stateless_entry := [] }

/-- Result of the external `vnet_flow_report_add_del` call (the
flow-report layer of vnet is not under src/): the return value and the
template id it writes through the out pointer on an add. -/
structure FlowReportExt where
  rv : Int
  template_id : Nat
deriving DecidableEq, Repr

/-- A successful external registration. -/
def ext_ok : FlowReportExt := { rv := 0, template_id := 0 }

/- ### Vector helpers -/

/-- Embeds the `vec_validate_init_empty (v, idx, empty)` macro: grow
the vector so index `idx` exists, filling fresh slots with `empty`. -/
def vec_validate_init_empty (v : List Nat) (idx e : Nat) : List Nat :=
  if idx < v.length then v else v ++ List.replicate (idx + 1 - v.length) e

/-- Embeds the `vec_neg_search (v, E)` macro: index of the first
element differing from `E`, or `none` for the `~0` not-found value. -/
def vec_neg_search : List Nat → Nat → Option Nat
  | [], _ => none
  | x :: xs, e =>
      if x = e then (vec_neg_search xs e).map (· + 1) else some 0

/-- Write through index `i` of a fixed C array modelled as a list
(out-of-range writes cannot arise on the paths the claims exercise). -/
def listUpdate (l : List Nat) (i : Nat) (f : Nat → Nat) : List Nat :=
  l.set i (f (l.getD i 0))

/- ### delayprobe_create_state_tables -/

/-- Embeds `delayprobe_create_state_tables (active_timer)` acting on
state `s` with `nt = 1 + tm->n_threads` workers at time `now`.  With a
nonzero active timer every worker gets an empty pool of `2 ^
ht_log2len` slots, a hash of `2 ^ ht_log2len` buckets all set to the
`~0` empty sentinel, an expired-handle vector and a timer wheel, and
`disabled` is set; otherwise only the per-worker stateless
last-exported stamps are written.  Both paths end with
`fm->initialized = true`.  The per-worker vectors are empty before the
only reachable call (the function is guarded by `!fm->initialized`),
so `vec_validate` growth is plain replication. -/
def delayprobe_create_state_tables (s : DelayprobeMain)
    (active_timer nt : Nat) (now : Rat) : DelayprobeMain :=
  if active_timer ≠ 0 then
    { s with
      ht_log2len := delayprobe_LOG2_HASHSIZE,
      timers_per_worker := List.replicate nt delayprobe_timer_wheel,
      expired_passive_per_worker := List.replicate nt ([] : List Nat),
      hash_per_worker :=
        List.replicate nt (List.replicate (2 ^ delayprobe_LOG2_HASHSIZE) U32_MAX),
      pool_per_worker :=
        List.replicate nt { capacity := 2 ^ delayprobe_LOG2_HASHSIZE },
      disabled := true,
      initialized := true }
  else
    { s with
      ht_log2len := delayprobe_LOG2_HASHSIZE,
      stateless_entry := List.replicate nt now,
      disabled := false,
      initialized := true }

/- ### validate_feature_on_interface -/

/-- The two `vec_validate_init_empty` calls at the top of
`validate_feature_on_interface`: grow the per-interface maps so index
`sw` exists, filling fresh slots with the `~0` sentinel. -/
def validate_grow (s : DelayprobeMain) (sw : Nat) : DelayprobeMain :=
  { s with
    flow_per_interface :=
      vec_validate_init_empty s.flow_per_interface sw U8_SENTINEL,
    direction_per_interface :=
      vec_validate_init_empty s.direction_per_interface sw U8_SENTINEL }

/-- Embeds `validate_feature_on_interface`: grows the per-interface
maps with the `~0` sentinel, then returns `-1` when the interface has
no variant, `0` when it has a different variant, `1` when it already
has `which`.  The grown state is returned as well, because the macro
mutates the module vectors in place. -/
def validate_feature_on_interface (s : DelayprobeMain) (sw which : Nat) :
    DelayprobeMain × Int :=
  if (validate_grow s sw).flow_per_interface.getD sw U8_SENTINEL =
      U8_SENTINEL then (validate_grow s sw, -1)
  else if (validate_grow s sw).flow_per_interface.getD sw U8_SENTINEL ≠
      which then (validate_grow s sw, 0)
  else (validate_grow s sw, 1)

/- ### delayprobe_interface_add_del_feature -/

/-- Phase one of `delayprobe_interface_add_del_feature`: the three
unconditional stores of lines 351-353 — per-interface variant and
direction slots, and the u32 increment / decrement of the per-variant
enabled count. -/
def feature_phase1 (s : DelayprobeMain) (sw which direction : Nat)
    (is_add : Bool) : DelayprobeMain :=
  { s with
    flow_per_interface :=
      s.flow_per_interface.set sw (if is_add then which else U8_SENTINEL),
    direction_per_interface :=
      s.direction_per_interface.set sw (if is_add then direction else U8_SENTINEL),
    template_per_flow :=
      listUpdate s.template_per_flow which
        (fun c => (c + (if is_add then 1 else U32_MOD - 1)) % U32_MOD) }

/-- The template-boundary test of line 357: first enable or last
disable of a variant, judged on the already-updated count. -/
def feature_boundary (is_add : Bool) (count : Nat) : Bool :=
  (is_add && (count == 1)) || (!is_add && (count == 0))

/-- Whether the external `delayprobe_template_add_del` call is made:
boundary crossing and the SRH-IPv6 variant. -/
def feature_call_ext (is_add : Bool) (count which : Nat) : Bool :=
  feature_boundary is_add count && (which == FLOW_VARIANT_SRH_IP6)

/-- The template id in scope at line 374: the id the external call
wrote when it was made on an add, else the cached
`fm->template_reports[flags]` when enabling with other interfaces
already active (line 354-355), else the initial 0. -/
def feature_template_id (reports : List Nat) (flags : Nat)
    (call_ext is_add : Bool) (count : Nat) (ext : FlowReportExt) : Nat :=
  if call_ext && is_add then ext.template_id
  else if is_add && decide (1 < count) then reports.getD flags 0
  else 0

/-- The side effect of a successful template registration: the
flow-report layer builds the template via the rewrite callback, which
stores `(u8 *) f - (u8 *) s` into `fm->template_size[flags]`. -/
def feature_phase2 (s : DelayprobeMain) (flags : Nat)
    (call_ext is_add : Bool) (ext : FlowReportExt) : DelayprobeMain :=
  if call_ext && is_add && (ext.rv == 0) then
    { s with template_size :=
        s.template_size.set flags delayprobe_template_size_value }
  else s

/-- The stores of lines 371-375, guarded by `which != (u8) ~0`:
`fm->context[which].flags = fm->record` and
`fm->template_reports[flags] = is_add ? template_id : 0`. -/
def feature_phase3 (s : DelayprobeMain) (flags which : Nat)
    (is_add : Bool) (template_id : Nat) : DelayprobeMain :=
  if which ≠ U8_SENTINEL then
    { s with
      context_flags := s.context_flags.set which s.record,
      template_reports :=
        s.template_reports.set flags (if is_add then template_id else 0) }
  else s

/-- The state-table hook of lines 399-404: on an add with the module
not yet initialized, allocate the per-worker structures. -/
def feature_phase4 (s : DelayprobeMain) (is_add : Bool) (nt : Nat)
    (now : Rat) : DelayprobeMain :=
  if is_add && !s.initialized then
    delayprobe_create_state_tables s s.active_timer nt now
  else s

/-- The count `fm->template_per_flow[which]` holds right after the
phase-one update — the value lines 354 and 357 test. -/
def feature_count (s : DelayprobeMain) (sw which direction : Nat)
    (is_add : Bool) : Nat :=
  (feature_phase1 s sw which direction is_add).template_per_flow.getD which 0

/-- The `rv` of line 347/361: the return of the external template
add/del call when that call is made, otherwise the initial 0. -/
def feature_ext_rv (s : DelayprobeMain) (sw which direction : Nat)
    (is_add : Bool) (ext : FlowReportExt) : Int :=
  if feature_call_ext is_add (feature_count s sw which direction is_add) which
  then ext.rv else 0

/-- The state `delayprobe_interface_add_del_feature` returns on its
success path: phases one to four composed, with the template id of
line 374 computed from the pre-store reports array. -/
def feature_success_state (s : DelayprobeMain) (sw which direction : Nat)
    (is_add : Bool) (ext : FlowReportExt) (nt : Nat) (now : Rat) :
    DelayprobeMain :=
  feature_phase4
    (feature_phase3
      (feature_phase2 (feature_phase1 s sw which direction is_add) s.record
        (feature_call_ext is_add (feature_count s sw which direction is_add)
          which) is_add ext)
      s.record which is_add
      (feature_template_id
        (feature_phase1 s sw which direction is_add).template_reports s.record
        (feature_call_ext is_add (feature_count s sw which direction is_add)
          which) is_add (feature_count s sw which direction is_add) ext))
    is_add nt now

/-- Embeds `delayprobe_interface_add_del_feature`.  The per-interface
and per-variant stores happen first; the external template
registration is consulted only on a boundary crossing, and a failing
return other than VALUE_EXIST aborts with -1 after those stores; the
feature-arc enable/disable calls touch no module state and are
elided.  `ext` stands for the external flow-report layer, `nt` for
the worker count and `now` for the current time. -/
def delayprobe_interface_add_del_feature (s : DelayprobeMain)
    (sw which direction : Nat) (is_add : Bool) (ext : FlowReportExt)
    (nt : Nat) (now : Rat) : DelayprobeMain × Int :=
  if feature_ext_rv s sw which direction is_add ext ≠ 0 ∧
     feature_ext_rv s sw which direction is_add ext ≠
       VNET_API_ERROR_VALUE_EXIST then
    (feature_phase2 (feature_phase1 s sw which direction is_add) s.record
      (feature_call_ext is_add (feature_count s sw which direction is_add)
        which) is_add ext, -1)
  else
    (feature_success_state s sw which direction is_add ext nt now, 0)

/- ### delayprobe_params and its entry points -/

/-- Embeds `delayprobe_params`: reject with UNSUPPORTED while any
interface slot differs from the `~0` sentinel; otherwise store the L3
record flag and the two timers, mapping the `(u32) ~0` arguments to
the built-in defaults. -/
def delayprobe_params (s : DelayprobeMain) (active_timer passive_timer : Nat) :
    DelayprobeMain × Int :=
  if vec_neg_search s.flow_per_interface U8_SENTINEL ≠ none then
    (s, VNET_API_ERROR_UNSUPPORTED)
  else
    ({ s with
       record := FLOW_RECORD_L3,
       active_timer :=
         if active_timer = U32_MAX then delayprobe_TIMER_ACTIVE else active_timer,
       passive_timer :=
         if passive_timer = U32_MAX then delayprobe_TIMER_PASSIVE else passive_timer },
     0)

/-- Result of the TX interface add/del API handler: the final module
state, the reply code, and whether
`delayprobe_interface_add_del_feature` was invoked. -/
structure TxHandlerResult where
  state : DelayprobeMain
  rv : Int
  feature_invoked : Bool
deriving DecidableEq, Repr

/-- Embeds `vl_api_delayprobe_tx_interface_add_del_t_handler`:
software-interface validation, the record-configured check, the
interface-state check `(rv == 1 && is_add == 1) || rv == 0`, then the
feature routine with direction fixed to TX.  `sw_valid` models
VALIDATE_SW_IF_INDEX. -/
def vl_api_delayprobe_tx_interface_add_del_t_handler (s : DelayprobeMain)
    (sw_valid : Bool) (sw which : Nat) (is_add : Bool) (ext : FlowReportExt)
    (nt : Nat) (now : Rat) : TxHandlerResult :=
  if sw_valid = false then
    { state := s, rv := VNET_API_ERROR_INVALID_SW_IF_INDEX,
      feature_invoked := false }
  else if s.record = 0 then
    { state := s, rv := VNET_API_ERROR_CANNOT_ENABLE_DISABLE_FEATURE,
      feature_invoked := false }
  else
    let vr := validate_feature_on_interface s sw which
    if (vr.2 = 1 ∧ is_add = true) ∨ vr.2 = 0 then
      { state := vr.1, rv := VNET_API_ERROR_CANNOT_ENABLE_DISABLE_FEATURE,
        feature_invoked := false }
    else
      let r := delayprobe_interface_add_del_feature vr.1 sw which
        FLOW_DIRECTION_TX is_add ext nt now
      { state := r.1, rv := r.2, feature_invoked := true }

/-- The control-path operations of the module: the plain params API
handler, the set-params API handler (which parses but forwards none of
the requested record flags), the params CLI command, and the TX
interface add/del API handler. -/
inductive ControlOp where
  | params (active passive : Nat)
  | setParams (record_flags active passive : Nat)
  | cliParams (active passive : Nat)
  | txAddDel (sw_valid : Bool) (sw which : Nat) (is_add : Bool)
deriving DecidableEq, Repr

/-- One control-path call: dispatches to the embedded handler and
returns the new state with the reply / error code.
`vl_api_delayprobe_params_t_handler` forwards straight to
`delayprobe_params`; `vl_api_delayprobe_set_params_t_handler` and
`delayprobe_params_command_fn` first reject a nonzero passive timer
smaller than the active timer. -/
def controlStep (s : DelayprobeMain) (op : ControlOp) (ext : FlowReportExt)
    (nt : Nat) (now : Rat) : DelayprobeMain × Int :=
  match op with
  | .params a p => delayprobe_params s a p
  | .setParams _rf a p =>
      if 0 < p ∧ p < a then (s, VNET_API_ERROR_INVALID_VALUE)
      else delayprobe_params s a p
  | .cliParams a p =>
      if 0 < p ∧ p < a then (s, CLI_FAILURE)
      else
        let r := delayprobe_params s a p
        if r.2 ≠ 0 then (r.1, CLI_FAILURE) else (r.1, 0)
  | .txAddDel sw_valid sw which is_add =>
      let r := vl_api_delayprobe_tx_interface_add_del_t_handler s sw_valid sw
        which is_add ext nt now
      (r.state, r.rv)

/-- Whether a control operation is one of the configure-parameters
entry points. -/
def isConfigOp : ControlOp → Bool
  | .params _ _ => true
  | .setParams _ _ _ => true
  | .cliParams _ _ => true
  | .txAddDel _ _ _ _ => false

/-- Embeds `vl_api_delayprobe_get_params_t_handler`: the reply triple
(record flags, active timer, passive timer).  Only the L3 bit is ever
reported; the L2/L4 translations are commented out in the source. -/
def vl_api_delayprobe_get_params_reply (s : DelayprobeMain) :
    Nat × Nat × Nat :=
  ((if s.record &&& FLOW_RECORD_L3 ≠ 0 then DELAYPROBE_RECORD_FLAG_L3 else 0),
   s.active_timer, s.passive_timer)

/- ### The scheduler loop (C9) -/

/-- One worker visit in the `timer_process` while-loop body: the
interrupt is posted and `sleep_duration` is overwritten with 1e-4 when
that worker has a non-null expired-handle vector, 0.1 otherwise.  The
previous duration is discarded — exactly as the C assignment does. -/
def timer_process_sleep_step (_prev : Rat) (pending : Bool) : Rat :=
  if pending then 1 / 10000 else 1 / 10

/-- Embeds the sleep-interval computation of one `timer_process` loop
iteration: start from 0.1, then fold the per-worker overwrite over the
worker list (`worker_vms` holds only non-null mains, so every entry is
visited).  `pending i` models `fm->expired_passive_per_worker[i] > 0`. -/
def timer_process_sleep (pending : List Bool) : Rat :=
  pending.foldl timer_process_sleep_step (1 / 10)

/- ### Observational equality predicates -/

/-- Equality of the allocation-related state: everything
`delayprobe_create_state_tables` can touch. -/
def allocEq (a b : DelayprobeMain) : Prop :=
  a.ht_log2len = b.ht_log2len ∧
  a.pool_per_worker = b.pool_per_worker ∧
  a.hash_per_worker = b.hash_per_worker ∧
  a.timers_per_worker = b.timers_per_worker ∧
  a.expired_passive_per_worker = b.expired_passive_per_worker ∧
  a.stateless_entry = b.stateless_entry ∧
  a.initialized = b.initialized ∧
  a.disabled = b.disabled

/-- Observational equality of the whole module state.  The growable
per-interface vectors are compared pointwise through the `~0` default
(growing them with fresh sentinel slots is not an observable
mutation); every other field is compared directly. -/
def obsEq (a b : DelayprobeMain) : Prop :=
  (∀ i, a.flow_per_interface.getD i U8_SENTINEL =
        b.flow_per_interface.getD i U8_SENTINEL) ∧
  (∀ i, a.direction_per_interface.getD i U8_SENTINEL =
        b.direction_per_interface.getD i U8_SENTINEL) ∧
  a.record = b.record ∧
  a.active_timer = b.active_timer ∧
  a.passive_timer = b.passive_timer ∧
  a.template_per_flow = b.template_per_flow ∧
  a.template_reports = b.template_reports ∧
  a.template_size = b.template_size ∧
  a.context_flags = b.context_flags ∧
  allocEq a b

/- ### Concrete scenario states -/

/-- A module state right after `delayprobe params record l3`: the L3
record flag stored, no interface enabled, nothing allocated. -/
def configured_state : DelayprobeMain :=
  { delayprobe_init_state with record := FLOW_RECORD_L3 }

/-- The TX handler applied to `configured_state` as a disable of
interface 0, which has no variant enabled (C2 scenario). -/
def c2_res : TxHandlerResult :=
  vl_api_delayprobe_tx_interface_add_del_t_handler configured_state true 0
    FLOW_VARIANT_SRH_IP6 false ext_ok 1 0

/-- An external flow-report layer whose registration call fails with a
code other than VALUE_EXIST. -/
def ext_fail : FlowReportExt := { rv := -9, template_id := 33 }

/-- Enabling interface 0 on `configured_state` while the external
template registration fails (C3 scenario). -/
def c3_res : DelayprobeMain × Int :=
  controlStep configured_state (.txAddDel true 0 FLOW_VARIANT_SRH_IP6 true)
    ext_fail 1 0

/-- A state with two interfaces enabled on the SRH-IPv6 variant, a
cached template id 7 for the L3 record flag, and the state tables
already allocated (C4 scenario). -/
def c4_state : DelayprobeMain :=
  { delayprobe_init_state with
    record := FLOW_RECORD_L3,
    flow_per_interface := [FLOW_VARIANT_SRH_IP6, FLOW_VARIANT_SRH_IP6],
    direction_per_interface := [FLOW_DIRECTION_TX, FLOW_DIRECTION_TX],
    template_per_flow := [2],
    template_reports := [0, 0, 7, 0, 0, 0, 0, 0],
    initialized := true }

/-- Disabling interface 0 of `c4_state` while interface 1 keeps the
variant active. -/
def c4_res : DelayprobeMain × Int :=
  delayprobe_interface_add_del_feature c4_state 0 FLOW_VARIANT_SRH_IP6
    FLOW_DIRECTION_TX false ext_ok 1 0

/-- The plain params API handler applied with active timer 10 and a
nonzero smaller passive timer 5 (C6 scenario). -/
def c6_res : DelayprobeMain × Int :=
  controlStep delayprobe_init_state (.params 10 5) ext_ok 1 0

/-- Enabling interface 0 on `configured_state` with a cooperating
external layer and one worker at time 0 (C7 scenario: the first
successful enable). -/
def c7_res : DelayprobeMain × Int :=
  delayprobe_interface_add_del_feature configured_state 0
    FLOW_VARIANT_SRH_IP6 FLOW_DIRECTION_TX true ext_ok 1 0

/-- A state with exactly one interface (index 0) enabled on the
SRH-IPv6 variant (C5 scenario). -/
def c5_state : DelayprobeMain :=
  { delayprobe_init_state with
    record := FLOW_RECORD_L3,
    flow_per_interface := [FLOW_VARIANT_SRH_IP6],
    direction_per_interface := [FLOW_DIRECTION_TX],
    template_per_flow := [1] }

/- ### List helper lemmas -/

theorem getD_replicate (k i e : Nat) : (List.replicate k e).getD i e = e := by
  induction k generalizing i with
  | zero => cases i <;> rfl
  | succ n ih =>
      cases i with
      | zero => rfl
      | succ j => exact ih j

theorem getD_append_replicate (v : List Nat) (k i e : Nat) :
    (v ++ List.replicate k e).getD i e = v.getD i e := by
  induction v generalizing i with
  | nil => exact getD_replicate k i e
  | cons x xs ih =>
      cases i with
      | zero => rfl
      | succ j => simpa using ih j

theorem vec_validate_init_empty_getD (v : List Nat) (idx e i : Nat) :
    (vec_validate_init_empty v idx e).getD i e = v.getD i e := by
  unfold vec_validate_init_empty
  split
  · rfl
  · exact getD_append_replicate v _ i e

theorem set_getD_self (l : List Nat) (i : Nat) :
    l.set i (l.getD i 0) = l := by
  induction l generalizing i with
  | nil => rfl
  | cons x xs ih =>
      cases i with
      | zero => rfl
      | succ j => simpa [List.set] using ih j

theorem getD_set_self (l : List Nat) (i v d : Nat) (h : i < l.length) :
    (l.set i v).getD i d = v := by
  induction l generalizing i with
  | nil => simp at h
  | cons x xs ih =>
      cases i with
      | zero => rfl
      | succ j =>
          simpa [List.set] using ih j (by simpa using h)

theorem vec_neg_search_none_getD (v : List Nat) (e : Nat)
    (h : vec_neg_search v e = none) : ∀ i, v.getD i e = e := by
  induction v with
  | nil => intro i; cases i <;> rfl
  | cons x xs ih =>
      intro i
      unfold vec_neg_search at h
      by_cases hx : x = e
      · rw [if_pos hx] at h
        cases hv : vec_neg_search xs e with
        | none =>
            cases i with
            | zero => simpa using hx
            | succ j => simpa using ih hv j
        | some k => rw [hv] at h; simp at h
      · rw [if_neg hx] at h; simp at h

theorem allocEq_refl (a : DelayprobeMain) : allocEq a a := by
  unfold allocEq; exact ⟨rfl, rfl, rfl, rfl, rfl, rfl, rfl, rfl⟩

theorem obsEq_refl (a : DelayprobeMain) : obsEq a a := by
  unfold obsEq
  exact ⟨fun _ => rfl, fun _ => rfl, rfl, rfl, rfl, rfl, rfl, rfl, rfl,
    allocEq_refl a⟩

/- ### C1 -/

/-- C1: the SRH-IPv6 template field-specifier list built by the
encoder has exactly 11 specifiers, in the claimed order and with the
claimed widths: srh source IPv6 16B, srh active-segment IPv6 16B,
srh segment-endpoint-behavior 2B, srh segments-left 1B, srh flags 1B,
srh tag 2B, srh segment list 16 x MAX_SID_LIST bytes, flow source IPv6
16B, flow destination IPv6 16B, packetDeltaCount 8B, octetDeltaCount
8B. -/
theorem srh_ip6_template_field_list_exact :
    delayprobe_template_ip6_srh_fields.map (fun f => (f.element, f.length)) =
      spec_srh_ip6_field_layout ∧
    delayprobe_template_ip6_srh_fields.length =
      delayprobe_template_ip6_srh_field_count ∧
    delayprobe_template_ip6_srh_field_count = 11 ∧
    (∀ f ∈ delayprobe_template_ip6_srh_fields, f.enterprise = 0) := by
  refine ⟨rfl, rfl, rfl, ?_⟩
  decide

/- ### C8 -/

/-- C8: the template packet has an outer IPv4 header with
version/length byte 0x45, fixed TTL 254, protocol UDP and a computed
IPv4 header checksum; a UDP header whose length equals the packet
length minus the IPv4 header; a message header with the domain id
filled but export time and sequence number left unfilled by this
encoder; a set header with set id 2 and length spanning from the set
header to the end of the field list; and a template header carrying
the template id and a field count of 11. -/
theorem template_packet_layout (src dst sport cport domain tid : Nat) :
    (delayprobe_template_rewrite src dst sport cport domain tid).ip_version_and_header_length = some 0x45 ∧
    (delayprobe_template_rewrite src dst sport cport domain tid).ip_ttl = some 254 ∧
    (delayprobe_template_rewrite src dst sport cport domain tid).ip_protocol = some IP_PROTOCOL_UDP ∧
    (delayprobe_template_rewrite src dst sport cport domain tid).ip_checksum =
      some (ip4_header_checksum 0x45 0
        (delayprobe_template_rewrite src dst sport cport domain tid).rewrite_len
        0 0 254 IP_PROTOCOL_UDP src dst) ∧
    (delayprobe_template_rewrite src dst sport cport domain tid).udp_length =
      some ((delayprobe_template_rewrite src dst sport cport domain tid).rewrite_len -
        ip4_header_bytes) ∧
    (delayprobe_template_rewrite src dst sport cport domain tid).h_domain_id = some domain ∧
    (delayprobe_template_rewrite src dst sport cport domain tid).h_export_time = none ∧
    (delayprobe_template_rewrite src dst sport cport domain tid).h_sequence_number = none ∧
    (delayprobe_template_rewrite src dst sport cport domain tid).s_set_id_length =
      some (2, ipfix_set_header_bytes + ipfix_template_header_bytes +
        (delayprobe_template_rewrite src dst sport cport domain tid).fields.length *
          ipfix_field_specifier_bytes) ∧
    (delayprobe_template_rewrite src dst sport cport domain tid).t_id_count =
      some (tid, 11) := by
  refine ⟨rfl, rfl, rfl, rfl, rfl, rfl, rfl, rfl, rfl, rfl⟩

/- ### Error-code facts -/

theorem err_unsupported_ne_zero : VNET_API_ERROR_UNSUPPORTED ≠ 0 := by decide

theorem err_invalid_value_ne_zero : VNET_API_ERROR_INVALID_VALUE ≠ 0 := by decide

theorem err_cli_failure_ne_zero : CLI_FAILURE ≠ 0 := by decide

/- ### delayprobe_params lemmas -/

theorem delayprobe_params_err_fst (s : DelayprobeMain) (a p : Nat)
    (h : (delayprobe_params s a p).2 ≠ 0) : (delayprobe_params s a p).1 = s := by
  by_cases hc : vec_neg_search s.flow_per_interface U8_SENTINEL ≠ none
  · unfold delayprobe_params; rw [if_pos hc]
  · exfalso; apply h; unfold delayprobe_params; rw [if_neg hc]

theorem delayprobe_params_record (s : DelayprobeMain) (a p : Nat)
    (h : (delayprobe_params s a p).2 = 0) :
    (delayprobe_params s a p).1.record = FLOW_RECORD_L3 := by
  by_cases hc : vec_neg_search s.flow_per_interface U8_SENTINEL ≠ none
  · exfalso
    unfold delayprobe_params at h
    rw [if_pos hc] at h
    exact err_unsupported_ne_zero h
  · unfold delayprobe_params; rw [if_neg hc]

/- ### C5 -/

/-- C5: while at least one interface slot holds a variant, every call
of `delayprobe_params` fails with the config-conflict (UNSUPPORTED)
error and returns the state untouched: record flags, active timer and
passive timer keep their previous values. -/
theorem params_while_interface_enabled_rejected (s : DelayprobeMain)
    (a p i : Nat)
    (h : s.flow_per_interface.getD i U8_SENTINEL ≠ U8_SENTINEL) :
    delayprobe_params s a p = (s, VNET_API_ERROR_UNSUPPORTED) ∧
    VNET_API_ERROR_UNSUPPORTED ≠ 0 := by
  have hc : vec_neg_search s.flow_per_interface U8_SENTINEL ≠ none :=
    fun hn => h (vec_neg_search_none_getD _ _ hn i)
  constructor
  · unfold delayprobe_params; rw [if_pos hc]
  · decide

/-- Witness for C5 at a state with interface 0 enabled. -/
theorem params_while_interface_enabled_rejected_witness :
    c5_state.flow_per_interface.getD 0 U8_SENTINEL ≠ U8_SENTINEL ∧
    (delayprobe_params c5_state 7 9 = (c5_state, VNET_API_ERROR_UNSUPPORTED) ∧
     VNET_API_ERROR_UNSUPPORTED ≠ 0) :=
  ⟨by decide, params_while_interface_enabled_rejected c5_state 7 9 0 (by decide)⟩

/- ### C2 -/

/-- C2: evaluating the TX interface handler at the failing input —
a disable of interface 0 while no variant is enabled on it, with the
record flags configured — shows the handler does invoke the
feature-change routine, replies success instead of an
interface-state-conflict error, and wraps the per-variant enabled
count from 0 to `2 ^ 32 - 1`. -/
theorem tx_disable_without_enable_not_rejected :
    c2_res.feature_invoked = true ∧
    c2_res.rv = 0 ∧
    c2_res.state.template_per_flow = [U32_MAX] := by decide

/- ### C6 -/

/-- Counterexample for C6: the plain params API handler
(`vl_api_delayprobe_params_t_handler`) called with active timer 10 and
passive timer 5 — nonzero and smaller than the active timer — succeeds
and stores both timers. -/
theorem params_handler_stores_invalid_timers :
    (0 < 5 ∧ 5 < 10) ∧
    c6_res.2 = 0 ∧
    c6_res.1.active_timer = 10 ∧
    c6_res.1.passive_timer = 5 := by decide

/-- C6 as amended: the set-params API handler and the params CLI
command reject a nonzero passive timer smaller than the active timer
with an error and leave the state untouched; the plain params API
handler performs no such validation. -/
theorem validated_entry_points_reject_invalid_timers (s : DelayprobeMain)
    (rf a p : Nat) (ext : FlowReportExt) (nt : Nat) (now : Rat)
    (hp : 0 < p) (hpa : p < a) :
    controlStep s (.setParams rf a p) ext nt now =
      (s, VNET_API_ERROR_INVALID_VALUE) ∧
    controlStep s (.cliParams a p) ext nt now = (s, CLI_FAILURE) ∧
    VNET_API_ERROR_INVALID_VALUE ≠ 0 ∧ CLI_FAILURE ≠ 0 := by
  refine ⟨?_, ?_, by decide, by decide⟩
  · simp only [controlStep]; rw [if_pos ⟨hp, hpa⟩]
  · simp only [controlStep]; rw [if_pos ⟨hp, hpa⟩]

/-- Witness for the amended C6 with active 10 and passive 5. -/
theorem validated_entry_points_reject_invalid_timers_witness :
    (0 < (5 : Nat) ∧ (5 : Nat) < 10) ∧
    (controlStep delayprobe_init_state (.setParams 0 10 5) ext_ok 1 0 =
       (delayprobe_init_state, VNET_API_ERROR_INVALID_VALUE) ∧
     controlStep delayprobe_init_state (.cliParams 10 5) ext_ok 1 0 =
       (delayprobe_init_state, CLI_FAILURE) ∧
     VNET_API_ERROR_INVALID_VALUE ≠ 0 ∧ CLI_FAILURE ≠ 0) :=
  ⟨by decide,
   validated_entry_points_reject_invalid_timers delayprobe_init_state 0 10 5
     ext_ok 1 0 (by decide) (by decide)⟩

/- ### C10 -/

/-- C10: after every successful configure-parameters call — through
the plain params handler, the set-params handler or the CLI — the
stored record flags equal exactly the L3 flag, whatever record flags
were requested, and the get-params reply reports exactly the L3
flag. -/
theorem config_record_always_l3 (s : DelayprobeMain) (op : ControlOp)
    (ext : FlowReportExt) (nt : Nat) (now : Rat)
    (hop : isConfigOp op = true)
    (hok : (controlStep s op ext nt now).2 = 0) :
    (controlStep s op ext nt now).1.record = FLOW_RECORD_L3 ∧
    (vl_api_delayprobe_get_params_reply (controlStep s op ext nt now).1).1 =
      DELAYPROBE_RECORD_FLAG_L3 := by
  have hrec : (controlStep s op ext nt now).1.record = FLOW_RECORD_L3 := by
    cases op with
    | params a p => exact delayprobe_params_record s a p hok
    | setParams rf a p =>
        by_cases hv : 0 < p ∧ p < a
        · simp only [controlStep] at hok
          rw [if_pos hv] at hok
          exact absurd hok err_invalid_value_ne_zero
        · simp only [controlStep] at hok ⊢
          rw [if_neg hv] at hok ⊢
          exact delayprobe_params_record s a p hok
    | cliParams a p =>
        by_cases hv : 0 < p ∧ p < a
        · simp only [controlStep] at hok
          rw [if_pos hv] at hok
          exact absurd hok err_cli_failure_ne_zero
        · simp only [controlStep] at hok ⊢
          rw [if_neg hv] at hok ⊢
          by_cases he : (delayprobe_params s a p).2 ≠ 0
          · rw [if_pos he] at hok
            exact absurd hok err_cli_failure_ne_zero
          · rw [if_neg he] at hok ⊢
            exact delayprobe_params_record s a p (not_ne_iff.mp he)
    | txAddDel sw_valid sw which is_add => simp [isConfigOp] at hop
  refine ⟨hrec, ?_⟩
  unfold vl_api_delayprobe_get_params_reply
  rw [hrec]
  show (if FLOW_RECORD_L3 &&& FLOW_RECORD_L3 ≠ 0 then DELAYPROBE_RECORD_FLAG_L3
    else 0) = DELAYPROBE_RECORD_FLAG_L3
  decide

/-- Witness for C10: a successful set-params call requesting record
flags 7 (L2, L3 and L4 bits) still stores exactly the L3 flag. -/
theorem config_record_always_l3_witness :
    (isConfigOp (.setParams 7 5 20) = true ∧
     (controlStep delayprobe_init_state (.setParams 7 5 20) ext_ok 1 0).2 = 0) ∧
    ((controlStep delayprobe_init_state (.setParams 7 5 20) ext_ok 1 0).1.record =
       FLOW_RECORD_L3 ∧
     (vl_api_delayprobe_get_params_reply
        (controlStep delayprobe_init_state (.setParams 7 5 20) ext_ok 1 0).1).1 =
       DELAYPROBE_RECORD_FLAG_L3) :=
  ⟨⟨rfl, by decide⟩,
   config_record_always_l3 delayprobe_init_state (.setParams 7 5 20) ext_ok 1 0
     rfl (by decide)⟩

/- ### Feature-routine lemmas -/

theorem feature_ext_rv_of_ok (s : DelayprobeMain) (sw which direction : Nat)
    (is_add : Bool) (ext : FlowReportExt) (hext : ext.rv = 0) :
    feature_ext_rv s sw which direction is_add ext = 0 := by
  unfold feature_ext_rv
  rw [hext]
  exact ite_self 0

theorem feature_eq_success (s : DelayprobeMain) (sw which direction : Nat)
    (is_add : Bool) (ext : FlowReportExt) (nt : Nat) (now : Rat)
    (hrv : feature_ext_rv s sw which direction is_add ext = 0) :
    delayprobe_interface_add_del_feature s sw which direction is_add ext nt
      now = (feature_success_state s sw which direction is_add ext nt now, 0)
    := by
  unfold delayprobe_interface_add_del_feature
  rw [if_neg]
  intro hcon
  exact hcon.1 hrv

theorem feature_rv_ext_ok (s : DelayprobeMain) (sw which direction : Nat)
    (is_add : Bool) (ext : FlowReportExt) (nt : Nat) (now : Rat)
    (hext : ext.rv = 0) :
    (delayprobe_interface_add_del_feature s sw which direction is_add ext nt
      now).2 = 0 := by
  rw [feature_eq_success s sw which direction is_add ext nt now
    (feature_ext_rv_of_ok s sw which direction is_add ext hext)]

theorem validate_feature_on_interface_fst (s : DelayprobeMain) (sw which : Nat) :
    (validate_feature_on_interface s sw which).1 = validate_grow s sw := by
  unfold validate_feature_on_interface
  split
  · rfl
  · split <;> rfl

theorem validate_obsEq (s : DelayprobeMain) (sw which : Nat) :
    obsEq (validate_feature_on_interface s sw which).1 s := by
  rw [validate_feature_on_interface_fst]
  unfold validate_grow obsEq allocEq
  exact ⟨fun i => vec_validate_init_empty_getD _ _ _ i,
    fun i => vec_validate_init_empty_getD _ _ _ i,
    rfl, rfl, rfl, rfl, rfl, rfl, rfl, rfl, rfl, rfl, rfl, rfl, rfl, rfl, rfl⟩

/- ### C3 -/

/-- Counterexample for C3: enabling interface 0 while the external
template registration fails makes the TX add/del operation return an
error, yet the per-interface variant slot and the per-variant enabled
count have already been mutated. -/
theorem enable_error_with_mutation :
    c3_res.2 ≠ 0 ∧
    c3_res.1.flow_per_interface.getD 0 U8_SENTINEL ≠
      configured_state.flow_per_interface.getD 0 U8_SENTINEL ∧
    c3_res.1.template_per_flow ≠ configured_state.template_per_flow := by
  decide

/-- C3 as amended: whenever the external template registration
succeeds, every control-path operation that returns an error leaves
the module state observationally unchanged — the only error path that
mutates first is the one triggered by a failing exporter registration
inside the feature routine. -/
theorem control_error_leaves_state_unchanged (s : DelayprobeMain)
    (op : ControlOp) (ext : FlowReportExt) (nt : Nat) (now : Rat)
    (hext : ext.rv = 0)
    (herr : (controlStep s op ext nt now).2 ≠ 0) :
    obsEq (controlStep s op ext nt now).1 s := by
  cases op with
  | params a p =>
      have heq : controlStep s (.params a p) ext nt now =
          delayprobe_params s a p := rfl
      rw [heq] at herr ⊢
      rw [delayprobe_params_err_fst s a p herr]
      exact obsEq_refl s
  | setParams rf a p =>
      by_cases hv : 0 < p ∧ p < a
      · have heq : controlStep s (.setParams rf a p) ext nt now =
            (s, VNET_API_ERROR_INVALID_VALUE) := by
          simp only [controlStep]; rw [if_pos hv]
        rw [heq]
        exact obsEq_refl s
      · have heq : controlStep s (.setParams rf a p) ext nt now =
            delayprobe_params s a p := by
          simp only [controlStep]; rw [if_neg hv]
        rw [heq] at herr ⊢
        rw [delayprobe_params_err_fst s a p herr]
        exact obsEq_refl s
  | cliParams a p =>
      by_cases hv : 0 < p ∧ p < a
      · have heq : controlStep s (.cliParams a p) ext nt now =
            (s, CLI_FAILURE) := by
          simp only [controlStep]; rw [if_pos hv]
        rw [heq]
        exact obsEq_refl s
      · by_cases he : (delayprobe_params s a p).2 ≠ 0
        · have heq : controlStep s (.cliParams a p) ext nt now =
              ((delayprobe_params s a p).1, CLI_FAILURE) := by
            simp only [controlStep]; rw [if_neg hv, if_pos he]
          rw [heq]
          rw [delayprobe_params_err_fst s a p he]
          exact obsEq_refl s
        · have heq : controlStep s (.cliParams a p) ext nt now =
              ((delayprobe_params s a p).1, 0) := by
            simp only [controlStep]; rw [if_neg hv, if_neg he]
          rw [heq] at herr
          exact absurd rfl herr
  | txAddDel sw_valid sw which is_add =>
      by_cases hsv : sw_valid = false
      · have heq : controlStep s (.txAddDel sw_valid sw which is_add) ext nt now
            = (s, VNET_API_ERROR_INVALID_SW_IF_INDEX) := by
          simp only [controlStep, vl_api_delayprobe_tx_interface_add_del_t_handler]
          rw [if_pos hsv]
        rw [heq]
        exact obsEq_refl s
      · by_cases hr : s.record = 0
        · have heq : controlStep s (.txAddDel sw_valid sw which is_add) ext nt
              now = (s, VNET_API_ERROR_CANNOT_ENABLE_DISABLE_FEATURE) := by
            simp only [controlStep, vl_api_delayprobe_tx_interface_add_del_t_handler]
            rw [if_neg hsv, if_pos hr]
          rw [heq]
          exact obsEq_refl s
        · by_cases hcf : ((validate_feature_on_interface s sw which).2 = 1 ∧
              is_add = true) ∨ (validate_feature_on_interface s sw which).2 = 0
          · have heq : controlStep s (.txAddDel sw_valid sw which is_add) ext nt
                now = ((validate_feature_on_interface s sw which).1,
                  VNET_API_ERROR_CANNOT_ENABLE_DISABLE_FEATURE) := by
              simp only [controlStep, vl_api_delayprobe_tx_interface_add_del_t_handler]
              rw [if_neg hsv, if_neg hr, if_pos hcf]
            rw [heq]
            exact validate_obsEq s sw which
          · have heq : (controlStep s (.txAddDel sw_valid sw which is_add) ext
                nt now).2 =
                (delayprobe_interface_add_del_feature
                  (validate_feature_on_interface s sw which).1 sw which
                  FLOW_DIRECTION_TX is_add ext nt now).2 := by
              simp only [controlStep, vl_api_delayprobe_tx_interface_add_del_t_handler]
              rw [if_neg hsv, if_neg hr, if_neg hcf]
            rw [heq] at herr
            exact absurd (feature_rv_ext_ok _ _ _ _ _ _ _ _ hext) herr

/-- Witness for the amended C3: an enable attempted before the record
flags are configured fails and changes nothing. -/
theorem control_error_leaves_state_unchanged_witness :
    ext_ok.rv = 0 ∧
    (controlStep delayprobe_init_state
       (.txAddDel true 0 FLOW_VARIANT_SRH_IP6 true) ext_ok 1 0).2 ≠ 0 ∧
    obsEq (controlStep delayprobe_init_state
       (.txAddDel true 0 FLOW_VARIANT_SRH_IP6 true) ext_ok 1 0).1
      delayprobe_init_state :=
  ⟨rfl, by decide,
   control_error_leaves_state_unchanged delayprobe_init_state
     (.txAddDel true 0 FLOW_VARIANT_SRH_IP6 true) ext_ok 1 0 rfl (by decide)⟩

/- ### Phase-level lemmas -/

theorem listUpdate_getD_self (l : List Nat) (i : Nat) (f : Nat → Nat)
    (h : i < l.length) : (listUpdate l i f).getD i 0 = f (l.getD i 0) := by
  unfold listUpdate
  exact getD_set_self l i _ 0 h

theorem feature_count_eq (s : DelayprobeMain) (sw which direction : Nat)
    (ia : Bool) (hlen : which < s.template_per_flow.length) :
    feature_count s sw which direction ia =
      (s.template_per_flow.getD which 0 + (if ia then 1 else U32_MOD - 1)) %
        U32_MOD := by
  unfold feature_count feature_phase1
  exact listUpdate_getD_self s.template_per_flow which
    (fun c => (c + (if ia then 1 else U32_MOD - 1)) % U32_MOD) hlen

theorem feature_phase2_of_true (t : DelayprobeMain) (flags : Nat)
    (ext : FlowReportExt) (h : ext.rv = 0) :
    feature_phase2 t flags true true ext =
      { t with template_size :=
          t.template_size.set flags delayprobe_template_size_value } := by
  unfold feature_phase2
  rw [h]
  rfl

theorem feature_phase2_of_false (t : DelayprobeMain) (flags : Nat) (ia : Bool)
    (ext : FlowReportExt) : feature_phase2 t flags false ia ext = t := by
  unfold feature_phase2
  rfl

theorem feature_phase2_not_add (t : DelayprobeMain) (flags : Nat) (ce : Bool)
    (ext : FlowReportExt) : feature_phase2 t flags ce false ext = t := by
  unfold feature_phase2
  cases ce <;> rfl

theorem feature_phase3_of_variant (t : DelayprobeMain) (flags : Nat)
    (ia : Bool) (tid : Nat) :
    feature_phase3 t flags FLOW_VARIANT_SRH_IP6 ia tid =
      { t with
        context_flags := t.context_flags.set FLOW_VARIANT_SRH_IP6 t.record,
        template_reports :=
          t.template_reports.set flags (if ia then tid else 0) } := by
  unfold feature_phase3
  rw [if_pos (show FLOW_VARIANT_SRH_IP6 ≠ U8_SENTINEL by decide)]

theorem feature_phase4_reports (t : DelayprobeMain) (ia : Bool) (nt : Nat)
    (now : Rat) : (feature_phase4 t ia nt now).template_reports =
      t.template_reports := by
  unfold feature_phase4 delayprobe_create_state_tables
  split
  · split <;> rfl
  · rfl

theorem feature_phase4_size (t : DelayprobeMain) (ia : Bool) (nt : Nat)
    (now : Rat) : (feature_phase4 t ia nt now).template_size =
      t.template_size := by
  unfold feature_phase4 delayprobe_create_state_tables
  split
  · split <;> rfl
  · rfl

theorem feature_template_id_first (reports : List Nat) (flags count : Nat)
    (ext : FlowReportExt) :
    feature_template_id reports flags true true count ext = ext.template_id :=
  rfl

theorem feature_template_id_cached (reports : List Nat) (flags count : Nat)
    (ext : FlowReportExt) (h : 1 < count) :
    feature_template_id reports flags false true count ext =
      reports.getD flags 0 := by
  unfold feature_template_id
  simp [h]

/- ### C4 -/

/-- Counterexample for C4: with two interfaces active on the SRH-IPv6
variant and template id 7 cached for the L3 record flag, disabling one
interface succeeds, leaves the enabled count at 1, and yet clears the
cached template id to 0. -/
theorem disable_with_remaining_clears_template_id :
    c4_res.2 = 0 ∧
    c4_res.1.template_per_flow = [1] ∧
    c4_state.template_reports.getD FLOW_RECORD_L3 0 = 7 ∧
    c4_res.1.template_reports.getD FLOW_RECORD_L3 0 = 0 := by
  decide

/-- C4 as amended: the cached template id and byte-size for a variant
are set on the first interface activation (enabled count 0 to 1, id
from the exporter registration, size from the template build); an
enable while other interfaces remain active leaves both caches
unchanged; but every disable — not only the last one — stores 0 into
the cached template id, while the cached template size is never
cleared by a disable. -/
theorem template_cache_lifecycle (s : DelayprobeMain) (sw direction : Nat)
    (is_add : Bool) (ext : FlowReportExt) (nt : Nat) (now : Rat)
    (hlen : FLOW_VARIANT_SRH_IP6 < s.template_per_flow.length)
    (hflags : s.record < s.template_reports.length)
    (hsz : s.record < s.template_size.length)
    (hc : s.template_per_flow.getD FLOW_VARIANT_SRH_IP6 0 < U32_MAX) :
    (is_add = true → s.template_per_flow.getD FLOW_VARIANT_SRH_IP6 0 = 0 →
      ext.rv = 0 →
      (delayprobe_interface_add_del_feature s sw FLOW_VARIANT_SRH_IP6
          direction is_add ext nt now).1.template_reports.getD s.record 0 =
        ext.template_id ∧
      (delayprobe_interface_add_del_feature s sw FLOW_VARIANT_SRH_IP6
          direction is_add ext nt now).1.template_size.getD s.record 0 =
        delayprobe_template_size_value) ∧
    (is_add = true → 1 ≤ s.template_per_flow.getD FLOW_VARIANT_SRH_IP6 0 →
      (delayprobe_interface_add_del_feature s sw FLOW_VARIANT_SRH_IP6
          direction is_add ext nt now).1.template_reports =
        s.template_reports ∧
      (delayprobe_interface_add_del_feature s sw FLOW_VARIANT_SRH_IP6
          direction is_add ext nt now).1.template_size = s.template_size) ∧
    (is_add = false → ext.rv = 0 →
      (delayprobe_interface_add_del_feature s sw FLOW_VARIANT_SRH_IP6
          direction is_add ext nt now).1.template_reports =
        s.template_reports.set s.record 0 ∧
      (delayprobe_interface_add_del_feature s sw FLOW_VARIANT_SRH_IP6
          direction is_add ext nt now).1.template_size = s.template_size) := by
  refine ⟨?_, ?_, ?_⟩
  · intro h1 hc0 hrv0
    subst h1
    have hcnt : feature_count s sw FLOW_VARIANT_SRH_IP6 direction true = 1 := by
      rw [feature_count_eq s sw FLOW_VARIANT_SRH_IP6 direction true hlen, hc0]
      decide
    have hce : feature_call_ext true
        (feature_count s sw FLOW_VARIANT_SRH_IP6 direction true)
        FLOW_VARIANT_SRH_IP6 = true := by
      rw [hcnt]; decide
    rw [feature_eq_success s sw FLOW_VARIANT_SRH_IP6 direction true ext nt now
      (feature_ext_rv_of_ok s sw FLOW_VARIANT_SRH_IP6 direction true ext hrv0)]
    unfold feature_success_state
    rw [hce, feature_phase2_of_true _ _ _ hrv0, feature_template_id_first,
      feature_phase3_of_variant]
    constructor
    · rw [feature_phase4_reports]
      exact getD_set_self _ _ _ _ hflags
    · rw [feature_phase4_size]
      exact getD_set_self _ _ _ _ hsz
  · intro h1 hge
    subst h1
    have hlt : s.template_per_flow.getD FLOW_VARIANT_SRH_IP6 0 + 1 < U32_MOD := by
      unfold U32_MAX at hc
      unfold U32_MOD
      omega
    have hcnt : feature_count s sw FLOW_VARIANT_SRH_IP6 direction true =
        s.template_per_flow.getD FLOW_VARIANT_SRH_IP6 0 + 1 := by
      rw [feature_count_eq s sw FLOW_VARIANT_SRH_IP6 direction true hlen]
      simpa using Nat.mod_eq_of_lt hlt
    have hb : feature_call_ext true
        (feature_count s sw FLOW_VARIANT_SRH_IP6 direction true)
        FLOW_VARIANT_SRH_IP6 = false := by
      rw [hcnt]
      unfold feature_call_ext feature_boundary
      have hne : ((s.template_per_flow.getD FLOW_VARIANT_SRH_IP6 0 + 1) == 1) =
          false := by
        simp only [beq_eq_false_iff_ne]
        omega
      simp only [Bool.true_and, Bool.not_true, Bool.false_and, Bool.or_false,
        beq_self_eq_true, Bool.and_true]
      exact hne
    have hrv : feature_ext_rv s sw FLOW_VARIANT_SRH_IP6 direction true ext =
        0 := by
      unfold feature_ext_rv
      rw [hb]
      rfl
    rw [feature_eq_success s sw FLOW_VARIANT_SRH_IP6 direction true ext nt now
      hrv]
    unfold feature_success_state
    rw [hb, feature_phase2_of_false,
      feature_template_id_cached _ _ _ _ (by rw [hcnt]; omega),
      feature_phase3_of_variant]
    constructor
    · rw [feature_phase4_reports]
      exact set_getD_self s.template_reports s.record
    · rw [feature_phase4_size]
      rfl
  · intro h0 hrv0
    subst h0
    rw [feature_eq_success s sw FLOW_VARIANT_SRH_IP6 direction false ext nt now
      (feature_ext_rv_of_ok s sw FLOW_VARIANT_SRH_IP6 direction false ext hrv0)]
    unfold feature_success_state
    rw [feature_phase2_not_add, feature_phase3_of_variant]
    constructor
    · rw [feature_phase4_reports]
      rfl
    · rw [feature_phase4_size]
      rfl

/-- Witness for the amended C4 at the two-interface state: the disable
clause applied to `c4_state`. -/
theorem template_cache_lifecycle_witness :
    (FLOW_VARIANT_SRH_IP6 < c4_state.template_per_flow.length ∧
     c4_state.record < c4_state.template_reports.length ∧
     c4_state.record < c4_state.template_size.length ∧
     c4_state.template_per_flow.getD FLOW_VARIANT_SRH_IP6 0 < U32_MAX) ∧
    (c4_res.1.template_reports = c4_state.template_reports.set c4_state.record 0 ∧
     c4_res.1.template_size = c4_state.template_size) :=
  ⟨by decide,
   (template_cache_lifecycle c4_state 0 FLOW_DIRECTION_TX false ext_ok 1 0
     (by decide) (by decide) (by decide) (by decide)).2.2 rfl rfl⟩

/- ### Allocation lemmas -/

theorem allocEq_trans (a b c : DelayprobeMain) (h1 : allocEq a b)
    (h2 : allocEq b c) : allocEq a c := by
  obtain ⟨x1, x2, x3, x4, x5, x6, x7, x8⟩ := h1
  obtain ⟨y1, y2, y3, y4, y5, y6, y7, y8⟩ := h2
  exact ⟨x1.trans y1, x2.trans y2, x3.trans y3, x4.trans y4, x5.trans y5,
    x6.trans y6, x7.trans y7, x8.trans y8⟩

theorem feature_phase1_allocEq (s : DelayprobeMain) (sw which direction : Nat)
    (ia : Bool) : allocEq (feature_phase1 s sw which direction ia) s := by
  unfold feature_phase1 allocEq
  exact ⟨rfl, rfl, rfl, rfl, rfl, rfl, rfl, rfl⟩

theorem feature_phase2_allocEq (t : DelayprobeMain) (flags : Nat)
    (ce ia : Bool) (ext : FlowReportExt) :
    allocEq (feature_phase2 t flags ce ia ext) t := by
  unfold feature_phase2 allocEq
  split <;> exact ⟨rfl, rfl, rfl, rfl, rfl, rfl, rfl, rfl⟩

theorem feature_phase3_allocEq (t : DelayprobeMain) (flags which : Nat)
    (ia : Bool) (tid : Nat) :
    allocEq (feature_phase3 t flags which ia tid) t := by
  unfold feature_phase3 allocEq
  split <;> exact ⟨rfl, rfl, rfl, rfl, rfl, rfl, rfl, rfl⟩

theorem feature_phase2_active_timer (t : DelayprobeMain) (flags : Nat)
    (ce ia : Bool) (ext : FlowReportExt) :
    (feature_phase2 t flags ce ia ext).active_timer = t.active_timer := by
  unfold feature_phase2
  split <;> rfl

theorem feature_phase3_active_timer (t : DelayprobeMain) (flags which : Nat)
    (ia : Bool) (tid : Nat) :
    (feature_phase3 t flags which ia tid).active_timer = t.active_timer := by
  unfold feature_phase3
  split <;> rfl

theorem feature_phase4_id_of_initialized (t : DelayprobeMain) (ia : Bool)
    (nt : Nat) (now : Rat) (h : t.initialized = true) :
    feature_phase4 t ia nt now = t := by
  unfold feature_phase4
  rw [h]
  simp

theorem feature_phase4_id_of_not_add (t : DelayprobeMain) (nt : Nat)
    (now : Rat) : feature_phase4 t false nt now = t := by
  unfold feature_phase4
  rfl

theorem create_state_tables_active (t : DelayprobeMain) (a nt : Nat)
    (now : Rat) (h : a ≠ 0) :
    delayprobe_create_state_tables t a nt now =
      { t with
        ht_log2len := delayprobe_LOG2_HASHSIZE,
        timers_per_worker := List.replicate nt delayprobe_timer_wheel,
        expired_passive_per_worker := List.replicate nt ([] : List Nat),
        hash_per_worker := List.replicate nt
          (List.replicate (2 ^ delayprobe_LOG2_HASHSIZE) U32_MAX),
        pool_per_worker :=
          List.replicate nt { capacity := 2 ^ delayprobe_LOG2_HASHSIZE },
        disabled := true,
        initialized := true } := by
  unfold delayprobe_create_state_tables
  rw [if_pos h]

theorem create_state_tables_stateless (t : DelayprobeMain) (nt : Nat)
    (now : Rat) :
    delayprobe_create_state_tables t 0 nt now =
      { t with
        ht_log2len := delayprobe_LOG2_HASHSIZE,
        stateless_entry := List.replicate nt now,
        disabled := false,
        initialized := true } := by
  unfold delayprobe_create_state_tables
  rw [if_neg (fun h => h rfl)]

theorem feature_phase4_first_enable (t : DelayprobeMain) (nt : Nat) (now : Rat)
    (hinit : t.initialized = false) :
    (feature_phase4 t true nt now).initialized = true ∧
    (feature_phase4 t true nt now).ht_log2len = delayprobe_LOG2_HASHSIZE ∧
    (t.active_timer ≠ 0 →
      (feature_phase4 t true nt now).pool_per_worker =
        List.replicate nt { capacity := 2 ^ delayprobe_LOG2_HASHSIZE } ∧
      (feature_phase4 t true nt now).hash_per_worker =
        List.replicate nt (List.replicate (2 ^ delayprobe_LOG2_HASHSIZE) U32_MAX) ∧
      (feature_phase4 t true nt now).timers_per_worker =
        List.replicate nt delayprobe_timer_wheel ∧
      (feature_phase4 t true nt now).stateless_entry = t.stateless_entry) ∧
    (t.active_timer = 0 →
      (feature_phase4 t true nt now).stateless_entry = List.replicate nt now ∧
      (feature_phase4 t true nt now).pool_per_worker = t.pool_per_worker ∧
      (feature_phase4 t true nt now).hash_per_worker = t.hash_per_worker ∧
      (feature_phase4 t true nt now).timers_per_worker =
        t.timers_per_worker) := by
  have h4 : feature_phase4 t true nt now =
      delayprobe_create_state_tables t t.active_timer nt now := by
    unfold feature_phase4
    rw [hinit]
    rfl
  rw [h4]
  by_cases ha : t.active_timer ≠ 0
  · rw [create_state_tables_active t _ nt now ha]
    exact ⟨rfl, rfl, fun _ => ⟨rfl, rfl, rfl, rfl⟩, fun h0 => absurd h0 ha⟩
  · have ha0 : t.active_timer = 0 := not_ne_iff.mp ha
    rw [ha0, create_state_tables_stateless t nt now]
    exact ⟨rfl, rfl, fun h0 => absurd rfl h0, fun _ => ⟨rfl, rfl, rfl, rfl⟩⟩

theorem feature_eq_error (s : DelayprobeMain) (sw which direction : Nat)
    (is_add : Bool) (ext : FlowReportExt) (nt : Nat) (now : Rat)
    (h : feature_ext_rv s sw which direction is_add ext ≠ 0 ∧
      feature_ext_rv s sw which direction is_add ext ≠
        VNET_API_ERROR_VALUE_EXIST) :
    delayprobe_interface_add_del_feature s sw which direction is_add ext nt
      now =
      (feature_phase2 (feature_phase1 s sw which direction is_add) s.record
        (feature_call_ext is_add (feature_count s sw which direction is_add)
          which) is_add ext, -1) := by
  unfold delayprobe_interface_add_del_feature
  rw [if_pos h]

theorem feature_eq_of_snd_zero (s : DelayprobeMain) (sw which direction : Nat)
    (is_add : Bool) (ext : FlowReportExt) (nt : Nat) (now : Rat)
    (h : (delayprobe_interface_add_del_feature s sw which direction is_add ext
      nt now).2 = 0) :
    delayprobe_interface_add_del_feature s sw which direction is_add ext nt
      now = (feature_success_state s sw which direction is_add ext nt now, 0)
    := by
  by_cases hcond : feature_ext_rv s sw which direction is_add ext ≠ 0 ∧
      feature_ext_rv s sw which direction is_add ext ≠
        VNET_API_ERROR_VALUE_EXIST
  · rw [feature_eq_error s sw which direction is_add ext nt now hcond] at h
    have hne : (-1 : Int) ≠ 0 := by decide
    exact absurd h hne
  · unfold delayprobe_interface_add_del_feature
    rw [if_neg hcond]

/- ### C7 -/

/-- C7: the per-worker state tables are allocated exactly once, by the
first successful enable while the module is uninitialized — with a
nonzero active timer every worker gets the slab pool, the hash of
`2 ^ L` buckets holding the all-ones empty sentinel and the timer
wheel, while a zero active timer yields only the per-worker
last-exported stamps — and the initialized flag is set; any call on an
already-initialized module, and any disable, changes none of the
allocation state. -/
theorem state_tables_allocated_once (s : DelayprobeMain)
    (sw which direction : Nat) (is_add : Bool) (ext : FlowReportExt)
    (nt : Nat) (now : Rat) :
    ((delayprobe_interface_add_del_feature s sw which direction is_add ext nt
        now).2 = 0 → is_add = true → s.initialized = false →
      ((delayprobe_interface_add_del_feature s sw which direction is_add ext
          nt now).1.initialized = true ∧
       (delayprobe_interface_add_del_feature s sw which direction is_add ext
          nt now).1.ht_log2len = delayprobe_LOG2_HASHSIZE ∧
       (s.active_timer ≠ 0 →
         (delayprobe_interface_add_del_feature s sw which direction is_add ext
            nt now).1.pool_per_worker =
           List.replicate nt { capacity := 2 ^ delayprobe_LOG2_HASHSIZE } ∧
         (delayprobe_interface_add_del_feature s sw which direction is_add ext
            nt now).1.hash_per_worker =
           List.replicate nt
             (List.replicate (2 ^ delayprobe_LOG2_HASHSIZE) U32_MAX) ∧
         (delayprobe_interface_add_del_feature s sw which direction is_add ext
            nt now).1.timers_per_worker =
           List.replicate nt delayprobe_timer_wheel ∧
         (delayprobe_interface_add_del_feature s sw which direction is_add ext
            nt now).1.stateless_entry = s.stateless_entry) ∧
       (s.active_timer = 0 →
         (delayprobe_interface_add_del_feature s sw which direction is_add ext
            nt now).1.stateless_entry = List.replicate nt now ∧
         (delayprobe_interface_add_del_feature s sw which direction is_add ext
            nt now).1.pool_per_worker = s.pool_per_worker ∧
         (delayprobe_interface_add_del_feature s sw which direction is_add ext
            nt now).1.hash_per_worker = s.hash_per_worker ∧
         (delayprobe_interface_add_del_feature s sw which direction is_add ext
            nt now).1.timers_per_worker = s.timers_per_worker))) ∧
    (s.initialized = true →
      allocEq (delayprobe_interface_add_del_feature s sw which direction
        is_add ext nt now).1 s) ∧
    (is_add = false →
      allocEq (delayprobe_interface_add_del_feature s sw which direction
        is_add ext nt now).1 s) := by
  refine ⟨?_, ?_, ?_⟩
  · intro h2 hadd hinit
    subst hadd
    rw [feature_eq_of_snd_zero s sw which direction true ext nt now h2]
    unfold feature_success_state
    set X := feature_phase3
      (feature_phase2 (feature_phase1 s sw which direction true) s.record
        (feature_call_ext true (feature_count s sw which direction true)
          which) true ext)
      s.record which true
      (feature_template_id
        (feature_phase1 s sw which direction true).template_reports s.record
        (feature_call_ext true (feature_count s sw which direction true)
          which) true (feature_count s sw which direction true) ext)
      with hXdef
    have hXalloc : allocEq X s := by
      rw [hXdef]
      exact allocEq_trans _ _ _ (feature_phase3_allocEq _ _ _ _ _)
        (allocEq_trans _ _ _ (feature_phase2_allocEq _ _ _ _ _)
          (feature_phase1_allocEq s sw which direction true))
    obtain ⟨e1, e2, e3, e4, e5, e6, e7, e8⟩ := hXalloc
    have hXinit : X.initialized = false := by rw [e7, hinit]
    have hXact : X.active_timer = s.active_timer := by
      rw [hXdef, feature_phase3_active_timer, feature_phase2_active_timer]
      rfl
    obtain ⟨r1, r2, r3, r4⟩ := feature_phase4_first_enable X nt now hXinit
    refine ⟨r1, r2, ?_, ?_⟩
    · intro ha
      obtain ⟨p1, p2, p3, p4⟩ := r3 (by rw [hXact]; exact ha)
      exact ⟨p1, p2, p3, p4.trans e6⟩
    · intro ha
      obtain ⟨q1, q2, q3, q4⟩ := r4 (by rw [hXact]; exact ha)
      exact ⟨q1, q2.trans e2, q3.trans e3, q4.trans e4⟩
  · intro hinit
    by_cases hcond : feature_ext_rv s sw which direction is_add ext ≠ 0 ∧
        feature_ext_rv s sw which direction is_add ext ≠
          VNET_API_ERROR_VALUE_EXIST
    · rw [feature_eq_error s sw which direction is_add ext nt now hcond]
      exact allocEq_trans _ _ _ (feature_phase2_allocEq _ _ _ _ _)
        (feature_phase1_allocEq s sw which direction is_add)
    · have heq : delayprobe_interface_add_del_feature s sw which direction
          is_add ext nt now =
          (feature_success_state s sw which direction is_add ext nt now, 0)
          := by
        unfold delayprobe_interface_add_del_feature
        rw [if_neg hcond]
      rw [heq]
      unfold feature_success_state
      set X := feature_phase3
        (feature_phase2 (feature_phase1 s sw which direction is_add) s.record
          (feature_call_ext is_add (feature_count s sw which direction is_add)
            which) is_add ext)
        s.record which is_add
        (feature_template_id
          (feature_phase1 s sw which direction is_add).template_reports
          s.record
          (feature_call_ext is_add (feature_count s sw which direction is_add)
            which) is_add (feature_count s sw which direction is_add) ext)
        with hXdef
      have hXalloc : allocEq X s := by
        rw [hXdef]
        exact allocEq_trans _ _ _ (feature_phase3_allocEq _ _ _ _ _)
          (allocEq_trans _ _ _ (feature_phase2_allocEq _ _ _ _ _)
            (feature_phase1_allocEq s sw which direction is_add))
      have hXinit : X.initialized = true := by
        obtain ⟨_, _, _, _, _, _, e7, _⟩ := hXalloc
        rw [e7, hinit]
      rw [feature_phase4_id_of_initialized X is_add nt now hXinit]
      exact hXalloc
  · intro h0
    subst h0
    by_cases hcond : feature_ext_rv s sw which direction false ext ≠ 0 ∧
        feature_ext_rv s sw which direction false ext ≠
          VNET_API_ERROR_VALUE_EXIST
    · rw [feature_eq_error s sw which direction false ext nt now hcond]
      exact allocEq_trans _ _ _ (feature_phase2_allocEq _ _ _ _ _)
        (feature_phase1_allocEq s sw which direction false)
    · have heq : delayprobe_interface_add_del_feature s sw which direction
          false ext nt now =
          (feature_success_state s sw which direction false ext nt now, 0)
          := by
        unfold delayprobe_interface_add_del_feature
        rw [if_neg hcond]
      rw [heq]
      unfold feature_success_state
      rw [feature_phase4_id_of_not_add]
      exact allocEq_trans _ _ _ (feature_phase3_allocEq _ _ _ _ _)
        (allocEq_trans _ _ _ (feature_phase2_allocEq _ _ _ _ _)
          (feature_phase1_allocEq s sw which direction false))

/-- Witness for C7: the first successful enable on `configured_state`
(nonzero active timer) allocates pools, sentinel-filled hashes and
wheels for the single worker and sets the initialized flag. -/
theorem state_tables_allocated_once_witness :
    ((delayprobe_interface_add_del_feature configured_state 0
        FLOW_VARIANT_SRH_IP6 FLOW_DIRECTION_TX true ext_ok 1 0).2 = 0 ∧
     configured_state.initialized = false ∧
     configured_state.active_timer ≠ 0) ∧
    ((delayprobe_interface_add_del_feature configured_state 0
        FLOW_VARIANT_SRH_IP6 FLOW_DIRECTION_TX true ext_ok 1 0).1.initialized =
       true ∧
     (delayprobe_interface_add_del_feature configured_state 0
        FLOW_VARIANT_SRH_IP6 FLOW_DIRECTION_TX true ext_ok 1 0).1.ht_log2len =
       delayprobe_LOG2_HASHSIZE ∧
     (delayprobe_interface_add_del_feature configured_state 0
        FLOW_VARIANT_SRH_IP6 FLOW_DIRECTION_TX true ext_ok 1 0).1.pool_per_worker =
       List.replicate 1 { capacity := 2 ^ delayprobe_LOG2_HASHSIZE } ∧
     (delayprobe_interface_add_del_feature configured_state 0
        FLOW_VARIANT_SRH_IP6 FLOW_DIRECTION_TX true ext_ok 1 0).1.hash_per_worker =
       List.replicate 1
         (List.replicate (2 ^ delayprobe_LOG2_HASHSIZE) U32_MAX) ∧
     (delayprobe_interface_add_del_feature configured_state 0
        FLOW_VARIANT_SRH_IP6 FLOW_DIRECTION_TX true ext_ok 1 0).1.timers_per_worker =
       List.replicate 1 delayprobe_timer_wheel ∧
     (delayprobe_interface_add_del_feature configured_state 0
        FLOW_VARIANT_SRH_IP6 FLOW_DIRECTION_TX true ext_ok 1 0).1.stateless_entry =
       configured_state.stateless_entry) := by
  have h := (state_tables_allocated_once configured_state 0
    FLOW_VARIANT_SRH_IP6 FLOW_DIRECTION_TX true ext_ok 1 0).1
    (by decide) rfl rfl
  obtain ⟨i1, i2, i3, _⟩ := h
  obtain ⟨p1, p2, p3, p4⟩ := i3 (by decide)
  exact ⟨⟨by decide, rfl, by decide⟩, i1, i2, p1, p2, p3, p4⟩

/- ### C9 -/

theorem long_ne_short : (1 / 10 : Rat) ≠ 1 / 10000 := by norm_num

theorem timer_sleep_foldl_last (l : List Bool) (i : Rat) :
    l.foldl timer_process_sleep_step i =
      match l.getLast? with
      | none => i
      | some b => timer_process_sleep_step i b := by
  induction l generalizing i with
  | nil => rfl
  | cons b t ih =>
      cases t with
      | nil => rfl
      | cons c t2 =>
          rw [List.getLast?_cons_cons]
          calc (b :: c :: t2).foldl timer_process_sleep_step i
              = (c :: t2).foldl timer_process_sleep_step
                  (timer_process_sleep_step i b) := rfl
            _ = _ := by
                rw [ih (timer_process_sleep_step i b)]
                cases hl : (c :: t2).getLast? with
                | none => simp at hl
                | some d => rfl

/-- Counterexample for C9: with two workers where the first has
pending expirations and the second does not, the loop chooses the long
0.1 sleep even though a worker is pending — the per-worker assignment
overwrites, so only the last worker decides. -/
theorem pending_first_worker_long_sleep :
    timer_process_sleep [true, false] = 1 / 10 ∧
    (1 / 10 : Rat) ≠ 1 / 10000 ∧
    [true, false].any (fun b => b) = true :=
  ⟨rfl, long_ne_short, rfl⟩

/-- C9 as amended: the scheduler sleep interval is the short 1e-4
value exactly when the last worker in the list reports pending
expirations; with any other (or no) last worker it is the long 0.1
value — earlier workers have no influence. -/
theorem sleep_short_iff_last_worker_pending (l : List Bool) :
    (timer_process_sleep l = 1 / 10000 ↔ l.getLast? = some true) ∧
    (timer_process_sleep l = 1 / 10000 ∨ timer_process_sleep l = 1 / 10) := by
  unfold timer_process_sleep
  rw [timer_sleep_foldl_last]
  cases hl : l.getLast? with
  | none =>
      refine ⟨⟨fun h => absurd h long_ne_short, fun h => by simp at h⟩,
        Or.inr rfl⟩
  | some b =>
      cases b with
      | false =>
          refine ⟨⟨fun h => absurd h long_ne_short, fun h => by simp at h⟩,
            Or.inr rfl⟩
      | true => exact ⟨⟨fun _ => rfl, fun _ => rfl⟩, Or.inl rfl⟩
